import Mathlib

/-!
Verification of the voxidria acoustic biomarker extraction engine.

This file gives a shallow embedding, in Lean 4, of the numeric pipeline of
the repository: the 16-feature Praat extractor (`server/src/services/
parsel_parser.py`), the nonlinear-feature helpers of `ml/test_pd_speech.py`,
the prediction wrapper (`server/src/ml/predict.py`), the vowel pipeline
(`backend/inference/services/vowel_pipeline.py`), the reading pipeline
(`backend/inference/services/reading_pipeline.py`), the pause-ratio
segmenter (`backend/task_2/services/pause_ratio.py`) and the speech-rate
normalizer (`backend/task_2/services/speech_rate.py`).

Python floats are modelled as `PyFloat` (a finite value modelled as an exact
rational, NaN, or one of the two infinities); arithmetic on values known to
be finite is modelled exactly over the rationals.  Calls into the external
Praat/parselmouth library are modelled by an oracle record supplying the
value each library call returns, with `Option` used for calls that may
raise an exception (`none` meaning the call raised).
-/

/-- Model of a Python float: either a finite value (modelled exactly as a
rational), NaN, or one of the two infinities. -/
inductive PyFloat where
  | val : ℚ → PyFloat
  | nan : PyFloat
  | inf : PyFloat
  | ninf : PyFloat
deriving DecidableEq, Repr

/-- A `PyFloat` is finite when it is an actual numeric value, neither NaN
nor infinite. -/
def PyFloat.isFinite : PyFloat → Prop
  | PyFloat.val _ => True
  | _ => False

/-- Model of `_safe_float` from `parsel_parser.py` (and the equivalent
helper in `test_pd_speech.py`), returning the rational value: `None`, NaN
and the infinities (and any conversion failure) map to the default, a
finite float maps to its value. -/
def safe_floatQ (x : Option PyFloat) (default : ℚ) : ℚ :=
  match x with
  | some (PyFloat.val q) => q
  | _ => default

/-- Model of `_safe_float` as a float-valued function (the form used to
build the returned feature dictionaries): the result is always the float of
the rational produced by `safe_floatQ`. -/
def safe_float (x : Option PyFloat) (default : ℚ) : PyFloat :=
  PyFloat.val (safe_floatQ x default)

/-- Python builtin `round(q)` on an exact rational: round half to even. -/
def pyRound (q : ℚ) : ℤ :=
  if q - (⌊q⌋ : ℚ) < 1/2 then ⌊q⌋
  else if 1/2 < q - (⌊q⌋ : ℚ) then ⌊q⌋ + 1
  else if ⌊q⌋ % 2 = 0 then ⌊q⌋ else ⌊q⌋ + 1

/-- Python builtin `round(q, n)` on an exact rational: round half to even
at the n-th decimal place. -/
def pyRoundTo (q : ℚ) (n : ℕ) : ℚ :=
  (pyRound (q * (10 : ℚ) ^ n) : ℚ) / (10 : ℚ) ^ n

/-- Sequential execution of a list of library calls inside a single Python
try block, where every target variable was initialised to `0.0` before the
block: calls run in order; the first call that raises (modelled as `none`)
aborts the block, so its own target and all later targets keep the default
`0.0`, while targets already assigned keep their computed values. -/
def seqTry (vals : List (Option PyFloat)) : List PyFloat :=
  match vals with
  | [] => []
  | none :: rest => List.replicate (rest.length + 1) (PyFloat.val 0)
  | some v :: rest => v :: seqTry rest

/-- Oracle for the external Praat/parselmouth library calls made by
`extract_uci16` in `server/src/services/parsel_parser.py`.  Each field is
the value the corresponding library call returns on the audio file being
analysed; `none` means the call raises an exception.  `pow10` abstracts
the real power function `fun x => 10 ** x` used in the NHR derivation. -/
structure PraatOracle where
  pitchStats : Option (PyFloat × PyFloat × PyFloat)
  ppOk : Bool
  jitterLocal : Option PyFloat
  jitterAbs : Option PyFloat
  rap : Option PyFloat
  ppq : Option PyFloat
  ddp : Option PyFloat
  shimmerLocal : Option PyFloat
  shimmerDb : Option PyFloat
  apq3 : Option PyFloat
  apq5 : Option PyFloat
  apq11 : Option PyFloat
  dda : Option PyFloat
  hnrRaw : Option PyFloat
  pow10 : ℚ → ℚ

/-- The five jitter library calls, in the order the source performs them. -/
def jitterCalls (o : PraatOracle) : List (Option PyFloat) :=
  [o.jitterLocal, o.jitterAbs, o.rap, o.ppq, o.ddp]

/-- The six shimmer library calls, in the order the source performs them. -/
def shimmerCalls (o : PraatOracle) : List (Option PyFloat) :=
  [o.shimmerLocal, o.shimmerDb, o.apq3, o.apq5, o.apq11, o.dda]

/-- Values of the five jitter variables after the jitter block of
`extract_uci16`: all stay `0.0` when the point process could not be built,
otherwise the single try block runs the five calls sequentially. -/
def jitterVals (o : PraatOracle) : List PyFloat :=
  if o.ppOk then seqTry (jitterCalls o) else List.replicate 5 (PyFloat.val 0)

/-- Values of the six shimmer variables after the shimmer block of
`extract_uci16`. -/
def shimmerVals (o : PraatOracle) : List PyFloat :=
  if o.ppOk then seqTry (shimmerCalls o) else List.replicate 6 (PyFloat.val 0)

/-- The pitch statistics (fo, fhi, flo) after the pitch block: all `0.0`
when any call of the pitch try block raises. -/
def pitchVals (o : PraatOracle) : PyFloat × PyFloat × PyFloat :=
  match o.pitchStats with
  | none => (PyFloat.val 0, PyFloat.val 0, PyFloat.val 0)
  | some t => t

/-- The `hnr` variable after the harmonicity block: `0.0` when the block
raises, otherwise whatever float the harmonicity mean call returned. -/
def hnrPy (o : PraatOracle) : PyFloat :=
  match o.hnrRaw with
  | none => PyFloat.val 0
  | some h => h

/-- The value `hnr_val = _safe_float(hnr, 0.0)` of `extract_uci16`. -/
def hnr_valQ (o : PraatOracle) : ℚ :=
  safe_floatQ (some (hnrPy o)) 0

/-- The NHR proxy of `extract_uci16`:
`1.0 / (10 ** (hnr_val / 10.0)) if hnr_val > 0 else 0.0`. -/
def nhrQ (o : PraatOracle) : ℚ :=
  if 0 < hnr_valQ o then 1 / o.pow10 (hnr_valQ o / 10) else 0

/-- Model of `extract_uci16` of `server/src/services/parsel_parser.py`:
the returned 16-key feature dictionary, as an association list in the
exact key order of the source return statement, every value passed
through `_safe_float`. -/
def extract_uci16 (o : PraatOracle) : List (String × PyFloat) :=
  let jv := jitterVals o
  let sv := shimmerVals o
  [ ("MDVP:Fo(Hz)", safe_float (some (pitchVals o).1) 0),
    ("MDVP:Fhi(Hz)", safe_float (some (pitchVals o).2.1) 0),
    ("MDVP:Flo(Hz)", safe_float (some (pitchVals o).2.2) 0),
    ("MDVP:Jitter(%)", safe_float (some (jv.getD 0 (PyFloat.val 0))) 0),
    ("MDVP:Jitter(Abs)", safe_float (some (jv.getD 1 (PyFloat.val 0))) 0),
    ("MDVP:RAP", safe_float (some (jv.getD 2 (PyFloat.val 0))) 0),
    ("MDVP:PPQ", safe_float (some (jv.getD 3 (PyFloat.val 0))) 0),
    ("Jitter:DDP", safe_float (some (jv.getD 4 (PyFloat.val 0))) 0),
    ("MDVP:Shimmer", safe_float (some (sv.getD 0 (PyFloat.val 0))) 0),
    ("MDVP:Shimmer(dB)", safe_float (some (sv.getD 1 (PyFloat.val 0))) 0),
    ("Shimmer:APQ3", safe_float (some (sv.getD 2 (PyFloat.val 0))) 0),
    ("Shimmer:APQ5", safe_float (some (sv.getD 3 (PyFloat.val 0))) 0),
    ("MDVP:APQ", safe_float (some (sv.getD 4 (PyFloat.val 0))) 0),
    ("Shimmer:DDA", safe_float (some (sv.getD 5 (PyFloat.val 0))) 0),
    ("NHR", safe_float (some (PyFloat.val (nhrQ o))) 0),
    ("HNR", safe_float (some (hnrPy o)) 0) ]

/-- The sixteen keys of the extracted feature dictionary, in source order. -/
def uci16Keys : List String :=
  ["MDVP:Fo(Hz)", "MDVP:Fhi(Hz)", "MDVP:Flo(Hz)",
   "MDVP:Jitter(%)", "MDVP:Jitter(Abs)", "MDVP:RAP", "MDVP:PPQ", "Jitter:DDP",
   "MDVP:Shimmer", "MDVP:Shimmer(dB)", "Shimmer:APQ3", "Shimmer:APQ5",
   "MDVP:APQ", "Shimmer:DDA", "NHR", "HNR"]

/-- The five jitter keys, in the order of the jitter calls. -/
def jitterKeys : List String :=
  ["MDVP:Jitter(%)", "MDVP:Jitter(Abs)", "MDVP:RAP", "MDVP:PPQ", "Jitter:DDP"]

/-- The six shimmer keys, in the order of the shimmer calls. -/
def shimmerKeys : List String :=
  ["MDVP:Shimmer", "MDVP:Shimmer(dB)", "Shimmer:APQ3", "Shimmer:APQ5",
   "MDVP:APQ", "Shimmer:DDA"]

/-- The eleven jitter and shimmer (perturbation) keys. -/
def perturbKeys : List String := jitterKeys ++ shimmerKeys

/-- The value of the j-th jitter measure in the returned feature
dictionary. -/
def jitterOut (o : PraatOracle) (j : ℕ) : Option PyFloat :=
  (extract_uci16 o).lookup (jitterKeys.getD j "")

/-- The value of the j-th shimmer measure in the returned feature
dictionary. -/
def shimmerOut (o : PraatOracle) (j : ℕ) : Option PyFloat :=
  (extract_uci16 o).lookup (shimmerKeys.getD j "")

/-- The six nonlinear/complexity keys, in the order of the 22-feature
dictionary of `ml/test_pd_speech.py`. -/
def nonlinearKeys : List String :=
  ["RPDE", "DFA", "spread1", "spread2", "D2", "PPE"]

/-- Modelled from the spec: the file `backend/inference/dataset_mean_values.json`
is not under src/.  Per spec section 4.7 it holds six fixed population-mean
values for the nonlinear/complexity features not derivable from a short
vowel clip; its key set is the declared 22-key vector minus the 16
extracted keys, and the numeric values are parameters here. -/
def datasetMeans (vRpde vDfa vS1 vS2 vD2 vPpe : ℚ) : List (String × PyFloat) :=
  [("RPDE", PyFloat.val vRpde), ("DFA", PyFloat.val vDfa),
   ("spread1", PyFloat.val vS1), ("spread2", PyFloat.val vS2),
   ("D2", PyFloat.val vD2), ("PPE", PyFloat.val vPpe)]

/-- Modelled from the spec: the file `ml/artifacts/feature_names.joblib`
is not under src/.  Per spec sections 3, 4.7 and 6 the scoring collaborator
consumes the 22 declared feature values in a fixed declared key order; the
order declared by the source is the order of the 22-feature dictionary of
`ml/test_pd_speech.py` (the 16 extracted keys followed by the 6 nonlinear
keys). -/
def feature_names : List String :=
  uci16Keys ++ nonlinearKeys

/-- Model of the Python dict merge `{**a, **b}` for string-keyed dicts:
keys of `a` in order (with the value from `b` where `b` also has the key),
followed by the keys only `b` has, in order. -/
def dictMerge (a b : List (String × PyFloat)) : List (String × PyFloat) :=
  (a.map fun p => (p.1, (b.lookup p.1).getD p.2))
    ++ b.filter (fun p => (a.lookup p.1).isNone)

/-- Result dictionary of `predict_from_dict` in `server/src/ml/predict.py`. -/
structure Prediction where
  probability_pd : ℚ
  prediction : ℕ
deriving DecidableEq, Repr

/-- Model of `predict_from_dict` of `server/src/ml/predict.py`: build the
row `[features[f] for f in featureNames]` (a missing key raises, modelled
as `none`), score it through the injected scaler+network (the external
classifier collaborator, modelled by `scorer`), and return the probability
together with the threshold decision `1 if prob >= 0.5 else 0`. -/
def predict_from_dict (scorer : List PyFloat → ℚ) (featureNames : List String)
    (features : List (String × PyFloat)) : Option Prediction :=
  match featureNames.mapM (fun f => features.lookup f) with
  | none => none
  | some x =>
    some { probability_pd := scorer x
           prediction := if 1/2 ≤ scorer x then 1 else 0 }

/-- The three risk buckets of the vowel pipeline. -/
inductive RiskBucket where
  | LOW
  | MODERATE
  | HIGH
deriving DecidableEq, Repr

/-- Model of `_risk_bucket` of
`backend/inference/services/vowel_pipeline.py`. -/
def risk_bucket (score : ℤ) : RiskBucket :=
  if score < 30 then RiskBucket.LOW
  else if score < 60 then RiskBucket.MODERATE
  else RiskBucket.HIGH

/-- Result of `run_vowel_pipeline` (the fields the verified claims are
about; download bookkeeping, logging and the duration field are omitted). -/
structure VowelResult where
  features_16 : List (String × PyFloat)
  features_22 : List (String × PyFloat)
  probability_pd : ℚ
  prediction : ℕ
  risk_score : ℤ
  risk_bucket : RiskBucket
deriving Repr

/-- Model of `run_vowel_pipeline` of
`backend/inference/services/vowel_pipeline.py`: extract the 16 UCI
features, merge in the six dataset means, predict, convert the probability
to the integer score `round(prob * 100)` and bucket it. -/
def run_vowel_pipeline (scorer : List PyFloat → ℚ)
    (means : List (String × PyFloat)) (o : PraatOracle) : Option VowelResult :=
  let f16 := extract_uci16 o
  let f22 := dictMerge f16 means
  match predict_from_dict scorer feature_names f22 with
  | none => none
  | some p =>
    let score := pyRound (p.probability_pd * 100)
    some { features_16 := f16, features_22 := f22
           probability_pd := p.probability_pd, prediction := p.prediction
           risk_score := score, risk_bucket := risk_bucket score }

/-- Model of the NHR derivation of `extract_all_features` in
`ml/test_pd_speech.py`: `hnr` is the safe-floated harmonicity mean
(`0.0` when the harmonicity block raises, modelled by `none`), and
`nhr = 1 / 10 ** (hnr / 10) if hnr >= 0.1 else 0.0`.  The function
`pow10` abstracts the real power function `fun x => 10 ** x`. -/
def nhr_ml (pow10 : ℚ → ℚ) (hnrRaw : Option PyFloat) : ℚ :=
  if 1/10 ≤ safe_floatQ hnrRaw 0 then 1 / pow10 (safe_floatQ hnrRaw 0 / 10) else 0

/-- The NHR derivation exactly as the specification words it (section 4.2):
`1 / 10 ** (HNR / 10)` when HNR > 0, else 0.  Stated from the words of the
spec, for comparison against the two code models. -/
def claimedNhr (pow10 : ℚ → ℚ) (hnr : ℚ) : ℚ :=
  if 0 < hnr then 1 / pow10 (hnr / 10) else 0

/-- Model of `np.clip(x, lo, hi)` on exact (non-NaN) values. -/
def npClip (x lo hi : ℚ) : ℚ :=
  min (max x lo) hi

/-- Model of `_dfa` of `ml/test_pd_speech.py`.  The numeric core is
abstracted: `flucts` is the list of per-scale mean RMS fluctuations the
box loop accumulates, and `alpha` is the slope fitted by `np.polyfit` in
log-log space.  The control flow of the source is kept exactly: fewer than
two valid scales fall back to `0.7`, otherwise the fitted slope is clipped
to `[0.3, 1.5]`. -/
def dfa (flucts : List ℚ) (alpha : ℚ) : ℚ :=
  if flucts.length < 2 then 7/10
  else npClip alpha (3/10) (3/2)

/-- Model of `_ppe` of `ml/test_pd_speech.py`.  `n` is the length of the
voiced F0 array, `degenerate` is the guard `hi == lo` (a zero-range log-F0
distribution), and `entropy` is the normalised Shannon entropy
`-sum(p * log p) / log 30` computed by the numeric core.  Control flow of
the source is kept exactly: fewer than 4 voiced points or a zero-range
distribution give `0.0`, otherwise the entropy clipped to `[0, 1]`. -/
def ppe (n : ℕ) (degenerate : Bool) (entropy : ℚ) : ℚ :=
  if n < 4 then 0
  else if degenerate then 0
  else npClip entropy 0 1

/-- Model of `_rpde` of `ml/test_pd_speech.py`.  `n` is the number of
embeddable points `N - (m-1)*tau`, `epsZero` the guard `epsilon == 0`,
`periods` the recurrence periods the loop collects, and `entropy` the
normalised entropy of their density.  Control flow of the source is kept
exactly: each degenerate guard returns `0.5`, otherwise the entropy is
clipped to `[0, 1]`. -/
def rpde (n : ℤ) (epsZero : Bool) (periods : List ℕ) (entropy : ℚ) : ℚ :=
  if n < 10 then 1/2
  else if epsZero then 1/2
  else if periods.isEmpty then 1/2
  else if (periods.foldr max 0) < 1 then 1/2
  else npClip entropy 0 1

/-- Model of `_d2` of `ml/test_pd_speech.py`.  `n` is the number of
embeddable points, `nDists` the count of strictly positive pairwise
Chebyshev distances, `r1` and `r2` the 5th and 50th distance percentiles,
`nValid` the number of radii with positive correlation sum, and `slope`
the log-log slope fitted by `np.polyfit`.  Control flow of the source is
kept exactly: each degenerate guard returns `2.0`, otherwise the slope is
clipped to `[0.5, 10.0]`. -/
def d2 (n : ℤ) (nDists : ℕ) (r1 r2 : ℚ) (nValid : ℕ) (slope : ℚ) : ℚ :=
  if n < 20 then 2
  else if nDists < 10 then 2
  else if r2 ≤ r1 then 2
  else if nValid < 2 then 2
  else npClip slope (1/2) 10

/-- Result record of `compute_pause_ratio` of
`backend/task_2/services/pause_ratio.py` (the audio path and the settings
dictionary are bookkeeping and are omitted). -/
structure PauseRatioResult where
  total_seconds : ℚ
  silence_seconds : ℚ
  pause_ratio : ℚ
  pause_count : ℕ
deriving DecidableEq, Repr

/-- Model of `compute_pause_ratio` of
`backend/task_2/services/pause_ratio.py`.  `total_ms` is the length of the
decoded audio in milliseconds; `silentRanges` is the list of
`[start_ms, end_ms]` intervals returned by the external
`pydub.silence.detect_silence` collaborator.  Zero-length audio returns the
all-zero result; otherwise the silence milliseconds are summed, the ratio
`silence_seconds / total_seconds` is clamped to `[0, 1]`, and every
reported duration is rounded to 4 decimal places. -/
def compute_pause_ratio (total_ms : ℕ) (silentRanges : List (ℤ × ℤ)) :
    PauseRatioResult :=
  if total_ms ≤ 0 then
    { total_seconds := 0, silence_seconds := 0, pause_ratio := 0, pause_count := 0 }
  else
    let silence_ms : ℤ := (silentRanges.map (fun r => max 0 (r.2 - r.1))).sum
    let total_seconds : ℚ := (total_ms : ℚ) / 1000
    let silence_seconds : ℚ := (silence_ms : ℚ) / 1000
    let ratio : ℚ := min 1 (max 0 (silence_seconds / total_seconds))
    { total_seconds := pyRoundTo total_seconds 4
      silence_seconds := pyRoundTo silence_seconds 4
      pause_ratio := pyRoundTo ratio 4
      pause_count := silentRanges.length }

/-- Result record of `compute_speech_rate_with_elevenlabs` of
`backend/task_2/services/speech_rate.py` (the transcript and model-id
fields are omitted). -/
structure SpeechRateResult where
  duration_seconds : ℚ
  word_count : ℕ
  language_code : String
  reading_speed_cps : ℚ
  speech_rate_wpm : Option ℚ
deriving DecidableEq, Repr

/-- Model of the Python `str.strip()` call: drop whitespace from both
ends. -/
def pyStrip (s : String) : String :=
  String.mk (((s.data.dropWhile Char.isWhitespace).reverse.dropWhile
    Char.isWhitespace).reverse)

/-- The normalised language code and its primary subtag, as computed by
`compute_speech_rate_with_elevenlabs`: the code is stripped, an empty code
becomes "unknown", and the primary subtag is `split("-")[0].lower()`, the
text before the first hyphen lowercased, except that the code "unknown"
has the empty primary subtag. -/
def primaryLang (language_code : Option String) : String × String :=
  let out0 := pyStrip (language_code.getD "")
  let out := if out0 = "" then "unknown" else out0
  let primary := if out = "unknown" then ""
    else String.mk ((out.data.takeWhile (fun c => c ≠ '-')).map Char.toLower)
  (out, primary)

/-- The word-segmentable language allowlist of
`compute_speech_rate_with_elevenlabs`. -/
def wpmLangs : List String := ["en", "hi", "te"]

/-- Model of `compute_speech_rate_with_elevenlabs` of
`backend/task_2/services/speech_rate.py` after the transcript has been
obtained from the external STT collaborator.  `wordCountOf` abstracts the
regex word tokenizer `_count_words` and `charCountOf` the language-neutral
character counter `_count_chars_language_neutral`.  A non-positive duration
is a hard error; otherwise characters per second are always reported, and
words per minute only when the primary language subtag is allowlisted
(`None`, not zero, otherwise). -/
def compute_speech_rate (wordCountOf charCountOf : String → ℕ)
    (transcript : String) (duration_seconds : ℚ)
    (language_code : Option String) : Except String SpeechRateResult :=
  if duration_seconds ≤ 0 then
    Except.error "Audio duration is 0 seconds - cannot compute speech rate."
  else
    let minutes := duration_seconds / 60
    let cps := (charCountOf transcript : ℚ) / duration_seconds
    let lang := primaryLang language_code
    if wpmLangs.contains lang.2 then
      let wc := wordCountOf transcript
      let wpm := if 0 < minutes then (wc : ℚ) / minutes else 0
      Except.ok { duration_seconds := pyRoundTo duration_seconds 3
                  word_count := wc
                  language_code := lang.1
                  reading_speed_cps := pyRoundTo cps 3
                  speech_rate_wpm := some (pyRoundTo wpm 2) }
    else
      Except.ok { duration_seconds := pyRoundTo duration_seconds 3
                  word_count := 0
                  language_code := lang.1
                  reading_speed_cps := pyRoundTo cps 3
                  speech_rate_wpm := none }

/-- The biomarker bundle assembled by the reading pipeline (each entry a
`dict.get`, hence optional, plus the transcript). -/
structure ReadingBiomarkers where
  pause_ratio : Option ℚ
  pitch_std_hz : Option ℚ
  loudness_cv : Option ℚ
  speech_rate_wpm : Option ℚ
  reading_speed_cps : Option ℚ
  transcript : String

/-- Outcome of `run_reading_pipeline`: either the rejection dictionary
(carrying `rejected = True`, the measured duration and an error code), or
the biomarker result dictionary. -/
inductive ReadingOutcome where
  | rejected (duration_ms : ℚ) (error_code : String)
  | ok (duration_ms : ℚ) (biomarkers : ReadingBiomarkers)

/-- The minimum accepted clip duration of
`backend/inference/services/reading_pipeline.py`, in milliseconds. -/
def MIN_DURATION_MS : ℚ := 13000

/-- Model of `run_reading_pipeline` of
`backend/inference/services/reading_pipeline.py`: clips whose measured
duration is below 13000 ms are rejected with error code AUDIO_TOO_SHORT
before biomarker extraction; all other clips run the extraction
(`analyze_audio_file`, modelled by the thunk `analyze`). -/
def run_reading_pipeline (analyze : Unit → ReadingBiomarkers)
    (duration_ms : ℚ) : ReadingOutcome :=
  if duration_ms < MIN_DURATION_MS then
    ReadingOutcome.rejected duration_ms "AUDIO_TOO_SHORT"
  else
    ReadingOutcome.ok duration_ms (analyze ())

/-- A benign oracle: every Praat call succeeds and returns a finite value,
as on a clean voiced recording. -/
def oTriv : PraatOracle where
  pitchStats := some (PyFloat.val 120, PyFloat.val 130, PyFloat.val 110)
  ppOk := true
  jitterLocal := some (PyFloat.val 0)
  jitterAbs := some (PyFloat.val 0)
  rap := some (PyFloat.val 0)
  ppq := some (PyFloat.val 0)
  ddp := some (PyFloat.val 0)
  shimmerLocal := some (PyFloat.val 0)
  shimmerDb := some (PyFloat.val 0)
  apq3 := some (PyFloat.val 0)
  apq5 := some (PyFloat.val 0)
  apq11 := some (PyFloat.val 0)
  dda := some (PyFloat.val 0)
  hnrRaw := some PyFloat.nan
  pow10 := fun _ => 1

/-- An oracle on which only the second jitter call (jitter absolute)
raises, while every other call, in particular the later rap call,
succeeds with a distinctive value. -/
def oC4 : PraatOracle where
  pitchStats := some (PyFloat.val 0, PyFloat.val 0, PyFloat.val 0)
  ppOk := true
  jitterLocal := some (PyFloat.val 1)
  jitterAbs := none
  rap := some (PyFloat.val 2)
  ppq := some (PyFloat.val 3)
  ddp := some (PyFloat.val 4)
  shimmerLocal := some (PyFloat.val 5)
  shimmerDb := some (PyFloat.val 6)
  apq3 := some (PyFloat.val 7)
  apq5 := some (PyFloat.val 8)
  apq11 := some (PyFloat.val 9)
  dda := some (PyFloat.val 10)
  hnrRaw := some (PyFloat.val 0)
  pow10 := fun _ => 1

/-- An empty biomarker bundle, used as a concrete extraction result. -/
def bTriv : ReadingBiomarkers :=
  { pause_ratio := none, pitch_std_hz := none, loudness_cv := none
    speech_rate_wpm := none, reading_speed_cps := none, transcript := "" }

/-- Clipping into a non-empty interval lands inside the interval. -/
lemma npClip_mem (x lo hi : ℚ) (h : lo ≤ hi) :
    lo ≤ npClip x lo hi ∧ npClip x lo hi ≤ hi :=
  ⟨le_min (le_max_right x lo) h, min_le_right _ _⟩

/-- Before the first raising call of a sequential try block, each target
holds the value its own call returned. -/
lemma seqTry_getD_before : ∀ (vals : List (Option PyFloat)) (j : ℕ),
    (∀ i, i ≤ j → vals.getD i none ≠ none) →
    (seqTry vals).getD j (PyFloat.val 0) = (vals.getD j none).getD (PyFloat.val 0) := by
  intro vals
  induction vals with
  | nil => intro j _; simp [seqTry]
  | cons v rest ih =>
    intro j hall
    have hv : v ≠ none := by simpa using hall 0 (Nat.zero_le j)
    obtain ⟨a, ha⟩ := Option.ne_none_iff_exists'.mp hv
    subst ha
    cases j with
    | zero => simp [seqTry]
    | succ j =>
      have : ∀ i, i ≤ j → rest.getD i none ≠ none := by
        intro i hi
        simpa using hall (i + 1) (Nat.succ_le_succ hi)
      simpa [seqTry] using ih j this

/-- Indexing a replicated default list always yields the default. -/
lemma getD_replicate_val : ∀ (n j : ℕ),
    (List.replicate n (PyFloat.val 0)).getD j (PyFloat.val 0) = PyFloat.val 0 := by
  intro n
  induction n with
  | zero => intro j; simp
  | succ n ih =>
    intro j
    cases j with
    | zero => simp [List.replicate]
    | succ j => simpa [List.replicate] using ih j

/-- From the first raising call of a sequential try block onwards, every
target holds the default 0.0. -/
lemma seqTry_getD_after : ∀ (vals : List (Option PyFloat)) (k j : ℕ),
    k ≤ j → vals.getD k none = none →
    (∀ i, i < k → vals.getD i none ≠ none) →
    (seqTry vals).getD j (PyFloat.val 0) = PyFloat.val 0 := by
  intro vals
  induction vals with
  | nil => intro k j _ _ _; simp [seqTry]
  | cons v rest ih =>
    intro k j hkj hnone hbefore
    cases k with
    | zero =>
      simp only [List.getD_cons_zero] at hnone
      subst hnone
      simpa [seqTry] using getD_replicate_val (rest.length + 1) j
    | succ k =>
      have hv : v ≠ none := by simpa using hbefore 0 (Nat.succ_pos k)
      obtain ⟨a, ha⟩ := Option.ne_none_iff_exists'.mp hv
      subst ha
      cases j with
      | zero => exact absurd hkj (by omega)
      | succ j =>
        have hb : ∀ i, i < k → rest.getD i none ≠ none := by
          intro i hi
          simpa using hbefore (i + 1) (Nat.succ_lt_succ hi)
        simpa [seqTry] using ih k j (Nat.le_of_succ_le_succ hkj) (by simpa using hnone) hb

/-- The j-th jitter entry of the returned dictionary is the safe float of
the j-th jitter variable. -/
lemma jitterOut_eq (o : PraatOracle) (j : ℕ) (hj : j < 5) :
    jitterOut o j = some (safe_float (some ((jitterVals o).getD j (PyFloat.val 0))) 0) := by
  interval_cases j <;> rfl

/-- The j-th shimmer entry of the returned dictionary is the safe float of
the j-th shimmer variable. -/
lemma shimmerOut_eq (o : PraatOracle) (j : ℕ) (hj : j < 6) :
    shimmerOut o j = some (safe_float (some ((shimmerVals o).getD j (PyFloat.val 0))) 0) := by
  interval_cases j <;> rfl

/-- C1: for every probability in [0, 1] returned by the injected scorer,
the vowel pipeline produces the integer risk score `round(p * 100)` and
buckets it LOW below 30, MODERATE from 30 below 60, HIGH from 60; in
particular probability 0.42 gives score 42 and MODERATE, 0.91 gives 91 and
HIGH, 0.10 gives 10 and LOW. -/
theorem vowel_risk_score_bucket (scorer : List PyFloat → ℚ)
    (means : List (String × PyFloat)) (o : PraatOracle) (r : VowelResult)
    (h : run_vowel_pipeline scorer means o = some r)
    (h0 : 0 ≤ r.probability_pd) (h1 : r.probability_pd ≤ 1) :
    r.risk_score = pyRound (r.probability_pd * 100) ∧
    r.risk_bucket = risk_bucket r.risk_score ∧
    (r.risk_score < 30 → r.risk_bucket = RiskBucket.LOW) ∧
    (30 ≤ r.risk_score → r.risk_score < 60 → r.risk_bucket = RiskBucket.MODERATE) ∧
    (60 ≤ r.risk_score → r.risk_bucket = RiskBucket.HIGH) ∧
    (r.probability_pd = 42/100 → r.risk_score = 42 ∧ r.risk_bucket = RiskBucket.MODERATE) ∧
    (r.probability_pd = 91/100 → r.risk_score = 91 ∧ r.risk_bucket = RiskBucket.HIGH) ∧
    (r.probability_pd = 10/100 → r.risk_score = 10 ∧ r.risk_bucket = RiskBucket.LOW) := by
  unfold run_vowel_pipeline at h
  dsimp only at h
  cases hp : predict_from_dict scorer feature_names
      (dictMerge (extract_uci16 o) means) with
  | none => rw [hp] at h; exact absurd h (by simp)
  | some p =>
    rw [hp] at h
    simp only [Option.some.injEq] at h
    subst h
    dsimp only
    refine ⟨rfl, rfl, ?_, ?_, ?_, ?_, ?_, ?_⟩
    · intro hs; simp only [risk_bucket, if_pos hs]
    · intro hs1 hs2
      simp only [risk_bucket]
      rw [if_neg (by omega), if_pos hs2]
    · intro hs
      simp only [risk_bucket]
      rw [if_neg (by omega), if_neg (by omega)]
    · intro hpv
      simp only [hpv]
      have : pyRound (42/100 * 100) = 42 := by norm_num [pyRound]
      rw [this]
      exact ⟨rfl, by norm_num [risk_bucket]⟩
    · intro hpv
      simp only [hpv]
      have : pyRound (91/100 * 100) = 91 := by norm_num [pyRound]
      rw [this]
      exact ⟨rfl, by norm_num [risk_bucket]⟩
    · intro hpv
      simp only [hpv]
      have : pyRound (10/100 * 100) = 10 := by norm_num [pyRound]
      rw [this]
      exact ⟨rfl, by norm_num [risk_bucket]⟩

/-- C1 witness: a concrete run with an injected scorer returning 0.42
yields probability 0.42, score 42 and bucket MODERATE. -/
theorem vowel_risk_score_bucket_witness :
    (run_vowel_pipeline (fun _ => 42/100) (datasetMeans 0 0 0 0 0 0) oTriv).map
      (fun r => (r.probability_pd, r.risk_score, r.risk_bucket))
      = some (42/100, 42, RiskBucket.MODERATE) := by
  have hs : (run_vowel_pipeline (fun _ => 42/100) (datasetMeans 0 0 0 0 0 0)
      oTriv).isSome = true := by rfl
  obtain ⟨r, hr⟩ := Option.isSome_iff_exists.mp hs
  have hprob : r.probability_pd = 42/100 := by
    have := congrArg (Option.map (fun x => x.probability_pd)) hr
    rw [show (run_vowel_pipeline (fun _ => 42/100) (datasetMeans 0 0 0 0 0 0)
        oTriv).map (fun r => r.probability_pd) = some (42/100) from rfl] at this
    simpa using this.symm
  have main := vowel_risk_score_bucket _ _ _ _ hr (by rw [hprob]; norm_num)
    (by rw [hprob]; norm_num)
  obtain ⟨hsc, hbk⟩ := main.2.2.2.2.2.1 hprob
  rw [hr]
  simp [hprob, hsc, hbk]

/-- C2: for every oracle outcome (hence every valid audio input, including
degenerate ones) and any dataset-mean values, the merged feature dictionary
has exactly the declared 22 keys in the declared order, and the row handed
to the injected scorer by predict_from_dict is exactly the dictionary
values in that declared key order. -/
theorem feature_vector_22_order (o : PraatOracle) (a b c d e f : ℚ)
    (scorer : List PyFloat → ℚ) :
    (dictMerge (extract_uci16 o) (datasetMeans a b c d e f)).map Prod.fst
        = feature_names ∧
    feature_names.length = 22 ∧
    feature_names.mapM
        (fun k => (dictMerge (extract_uci16 o) (datasetMeans a b c d e f)).lookup k)
      = some ((dictMerge (extract_uci16 o) (datasetMeans a b c d e f)).map Prod.snd) ∧
    predict_from_dict scorer feature_names
        (dictMerge (extract_uci16 o) (datasetMeans a b c d e f))
      = some { probability_pd := scorer
                 ((dictMerge (extract_uci16 o) (datasetMeans a b c d e f)).map Prod.snd)
               prediction := if 1/2 ≤ scorer
                 ((dictMerge (extract_uci16 o) (datasetMeans a b c d e f)).map Prod.snd)
                 then 1 else 0 } :=
  ⟨rfl, rfl, rfl, rfl⟩

/-- C3 counterexample: the claim "NHR equals 1 / 10 ** (HNR / 10) whenever
HNR is greater than 0" fails on the extractor of ml/test_pd_speech.py at
HNR = 0.05: that extractor returns 0.0 (its guard is HNR at least 0.1),
while the claimed formula gives a positive value (equal to 1 under the
witness power function). -/
theorem nhr_from_hnr_counterexample :
    nhr_ml (fun _ => 1) (some (PyFloat.val (1/20))) = 0 ∧
    claimedNhr (fun _ => 1) (safe_floatQ (some (PyFloat.val (1/20))) 0) = 1 ∧
    (0:ℚ) < safe_floatQ (some (PyFloat.val (1/20))) 0 ∧
    (0:ℚ) ≠ 1 := by
  norm_num [nhr_ml, claimedNhr, safe_floatQ]

/-- C3 (amended): the server extractor (parsel_parser.py) returns exactly
NHR = 1 / 10 ** (HNR / 10) when HNR > 0 and 0.0 otherwise, as the spec
formula states; the ml test extractor (test_pd_speech.py) agrees with that
formula whenever HNR is at least 0.1 or HNR is non-positive, but returns
0.0 on the gap 0 < HNR < 0.1 where its guard differs. -/
theorem nhr_from_hnr :
    (∀ o : PraatOracle, (extract_uci16 o).lookup "NHR"
        = some (PyFloat.val (claimedNhr o.pow10 (hnr_valQ o)))) ∧
    (∀ (pow10 : ℚ → ℚ) (hnrRaw : Option PyFloat),
      1/10 ≤ safe_floatQ hnrRaw 0 ∨ safe_floatQ hnrRaw 0 ≤ 0 →
      nhr_ml pow10 hnrRaw = claimedNhr pow10 (safe_floatQ hnrRaw 0)) ∧
    (∀ (pow10 : ℚ → ℚ) (hnrRaw : Option PyFloat),
      0 < safe_floatQ hnrRaw 0 → safe_floatQ hnrRaw 0 < 1/10 →
      nhr_ml pow10 hnrRaw = 0) := by
  refine ⟨fun o => rfl, ?_, ?_⟩
  · intro pow10 hnrRaw hcase
    unfold nhr_ml claimedNhr
    rcases hcase with hge | hle
    · rw [if_pos hge, if_pos (by linarith)]
    · rw [if_neg (by linarith), if_neg (by linarith)]
  · intro pow10 hnrRaw _ hlt
    unfold nhr_ml
    rw [if_neg (by linarith)]

/-- C3 witness: at HNR = 20 the ml extractor matches the spec formula; at
HNR = 0.05 it returns 0. -/
theorem nhr_from_hnr_witness :
    nhr_ml (fun _ => 1) (some (PyFloat.val 20)) = claimedNhr (fun _ => 1) 20 ∧
    nhr_ml (fun _ => 1) (some (PyFloat.val (1/20))) = 0 := by
  constructor
  · have h := nhr_from_hnr.2.1 (fun _ => 1) (some (PyFloat.val 20))
      (Or.inl (by norm_num [safe_floatQ]))
    simpa [safe_floatQ] using h
  · exact nhr_from_hnr.2.2 (fun _ => 1) (some (PyFloat.val (1/20)))
      (by norm_num [safe_floatQ]) (by norm_num [safe_floatQ])

/-- C4 counterexample: the claim that an exception in a single measure
defaults only that one measure is false: on an oracle where only the
jitter-absolute call raises, the rap call itself succeeds with value 2,
yet the returned MDVP:RAP entry is 0 because the shared try block aborted
before the rap assignment. -/
theorem perturb_isolation_counterexample :
    oC4.rap = some (PyFloat.val 2) ∧
    (extract_uci16 oC4).lookup "MDVP:RAP" = some (PyFloat.val 0) ∧
    PyFloat.val 0 ≠ PyFloat.val 2 := by
  refine ⟨rfl, rfl, ?_⟩
  intro h
  injection h with h2
  norm_num at h2

/-- C4 (amended): when no periodic pulse sequence can be derived, all
eleven perturbation values are 0.0 without an error; and an exception in
one jitter (resp. shimmer) measure defaults that measure and all later
measures of the same family to 0.0, while the measures computed before it
keep their own values and the other family is computed from its own calls
unaffected. -/
theorem perturb_isolation (o : PraatOracle) :
    (o.ppOk = false →
      ∀ key ∈ perturbKeys, (extract_uci16 o).lookup key = some (PyFloat.val 0)) ∧
    (o.ppOk = true → ∀ k, k < 5 → (jitterCalls o).getD k none = none →
      (∀ i, i < k → (jitterCalls o).getD i none ≠ none) →
      (∀ j, j < k → jitterOut o j = some (safe_float ((jitterCalls o).getD j none) 0)) ∧
      (∀ j, k ≤ j → j < 5 → jitterOut o j = some (PyFloat.val 0)) ∧
      (∀ j, j < 6 → shimmerOut o j
          = some (safe_float (some ((shimmerVals o).getD j (PyFloat.val 0))) 0))) ∧
    (o.ppOk = true → ∀ k, k < 6 → (shimmerCalls o).getD k none = none →
      (∀ i, i < k → (shimmerCalls o).getD i none ≠ none) →
      (∀ j, j < k → shimmerOut o j = some (safe_float ((shimmerCalls o).getD j none) 0)) ∧
      (∀ j, k ≤ j → j < 6 → shimmerOut o j = some (PyFloat.val 0)) ∧
      (∀ j, j < 5 → jitterOut o j
          = some (safe_float (some ((jitterVals o).getD j (PyFloat.val 0))) 0))) := by
  refine ⟨?_, ?_, ?_⟩
  · intro hpp key hkey
    have hj : ∀ j, j < 5 → jitterOut o j = some (PyFloat.val 0) := by
      intro j hj5
      rw [jitterOut_eq o j hj5]
      interval_cases j <;> simp [jitterVals, hpp, safe_float, safe_floatQ]
    have hs : ∀ j, j < 6 → shimmerOut o j = some (PyFloat.val 0) := by
      intro j hj6
      rw [shimmerOut_eq o j hj6]
      interval_cases j <;> simp [shimmerVals, hpp, safe_float, safe_floatQ]
    fin_cases hkey
    · exact hj 0 (by norm_num)
    · exact hj 1 (by norm_num)
    · exact hj 2 (by norm_num)
    · exact hj 3 (by norm_num)
    · exact hj 4 (by norm_num)
    · exact hs 0 (by norm_num)
    · exact hs 1 (by norm_num)
    · exact hs 2 (by norm_num)
    · exact hs 3 (by norm_num)
    · exact hs 4 (by norm_num)
    · exact hs 5 (by norm_num)
  · intro hpp k hk hnone hbefore
    refine ⟨?_, ?_, fun j hj => shimmerOut_eq o j hj⟩
    · intro j hj
      rw [jitterOut_eq o j (lt_trans hj hk)]
      simp only [jitterVals, hpp, if_true]
      rw [seqTry_getD_before (jitterCalls o) j
        (fun i hi => hbefore i (lt_of_le_of_lt hi hj))]
      obtain ⟨a, ha⟩ := Option.ne_none_iff_exists'.mp (hbefore j hj)
      rw [ha]
      rfl
    · intro j hkj hj5
      rw [jitterOut_eq o j hj5]
      simp only [jitterVals, hpp, if_true]
      rw [seqTry_getD_after (jitterCalls o) k j hkj hnone hbefore]
      rfl
  · intro hpp k hk hnone hbefore
    refine ⟨?_, ?_, fun j hj => jitterOut_eq o j hj⟩
    · intro j hj
      rw [shimmerOut_eq o j (lt_trans hj hk)]
      simp only [shimmerVals, hpp, if_true]
      rw [seqTry_getD_before (shimmerCalls o) j
        (fun i hi => hbefore i (lt_of_le_of_lt hi hj))]
      obtain ⟨a, ha⟩ := Option.ne_none_iff_exists'.mp (hbefore j hj)
      rw [ha]
      rfl
    · intro j hkj hj6
      rw [shimmerOut_eq o j hj6]
      simp only [shimmerVals, hpp, if_true]
      rw [seqTry_getD_after (shimmerCalls o) k j hkj hnone hbefore]
      rfl

/-- C4 witness: on the oracle where the jitter-absolute call raises, the
rap entry defaults to 0 while the jitter-local entry, computed before the
failure, keeps its value 1. -/
theorem perturb_isolation_witness :
    jitterOut oC4 2 = some (PyFloat.val 0) ∧
    jitterOut oC4 0 = some (safe_float (some (PyFloat.val 1)) 0) := by
  have hbefore : ∀ i, i < 1 → (jitterCalls oC4).getD i none ≠ none := by
    intro i hi
    interval_cases i
    simp [jitterCalls, oC4]
  have h := (perturb_isolation oC4).2.1 rfl 1 (by norm_num) rfl hbefore
  refine ⟨h.2.1 2 (by norm_num) (by norm_num), ?_⟩
  have h0 := h.1 0 (by norm_num)
  simpa [jitterCalls, oC4] using h0

/-- C5: the DFA model always returns a value in [0.3, 1.5], the RPDE and
PPE models always return values in [0, 1], and the D2 model always returns
a value in [0.5, 10], for every possible input (in particular every finite
signal, degenerate or not); the degenerate defaults 0.7, 0.5, 0.0 and 2.0
satisfy the bounds. -/
theorem nonlinear_feature_bounds :
    (∀ flucts alpha, 3/10 ≤ dfa flucts alpha ∧ dfa flucts alpha ≤ 3/2) ∧
    (∀ n epsZero periods entropy, 0 ≤ rpde n epsZero periods entropy ∧
      rpde n epsZero periods entropy ≤ 1) ∧
    (∀ n degenerate entropy, 0 ≤ ppe n degenerate entropy ∧
      ppe n degenerate entropy ≤ 1) ∧
    (∀ n nDists r1 r2 nValid slope, 1/2 ≤ d2 n nDists r1 r2 nValid slope ∧
      d2 n nDists r1 r2 nValid slope ≤ 10) ∧
    dfa [] 0 = 7/10 ∧ rpde 0 false [] 0 = 1/2 ∧ ppe 0 false 0 = 0 ∧
    d2 0 0 0 0 0 0 = 2 := by
  refine ⟨?_, ?_, ?_, ?_, by norm_num [dfa], by norm_num [rpde], by norm_num [ppe],
    by norm_num [d2]⟩
  · intro flucts alpha
    unfold dfa
    split_ifs with h
    · norm_num
    · exact npClip_mem alpha (3/10) (3/2) (by norm_num)
  · intro n epsZero periods entropy
    unfold rpde
    split_ifs <;> first
      | exact npClip_mem entropy 0 1 (by norm_num)
      | norm_num
  · intro n degenerate entropy
    unfold ppe
    split_ifs <;> first
      | exact npClip_mem entropy 0 1 (by norm_num)
      | norm_num
  · intro n nDists r1 r2 nValid slope
    unfold d2
    split_ifs <;> first
      | exact npClip_mem slope (1/2) 10 (by norm_num)
      | norm_num

/-- C6 counterexample: the claim that the returned pause_ratio equals the
clamped quotient exactly is false: for a 3000 ms clip with one 700 ms
silence the exact clamped quotient is 7/30, but the function returns the
4-decimal rounding 0.2333. -/
theorem pause_ratio_counterexample :
    (compute_pause_ratio 3000 [(0, 700)]).pause_ratio = 2333/10000 ∧
    (compute_pause_ratio 3000 [(0, 700)]).silence_seconds
        / (compute_pause_ratio 3000 [(0, 700)]).total_seconds = 7/30 ∧
    min 1 (max 0 ((7:ℚ)/30)) = 7/30 ∧
    (2333/10000 : ℚ) ≠ 7/30 := by
  norm_num [compute_pause_ratio, pyRoundTo, pyRound]

/-- C6 (amended): zero-length audio yields pause_ratio 0.0 and no error;
for positive length the returned pause_ratio is silence seconds divided by
total seconds, clamped to [0, 1] and then rounded to 4 decimal places. -/
theorem pause_ratio_zero_and_clamped (total_ms : ℕ) (ranges : List (ℤ × ℤ)) :
    (total_ms = 0 → compute_pause_ratio total_ms ranges
        = { total_seconds := 0, silence_seconds := 0, pause_ratio := 0,
            pause_count := 0 }) ∧
    (0 < total_ms → (compute_pause_ratio total_ms ranges).pause_ratio
        = pyRoundTo (min 1 (max 0
            ((((ranges.map (fun r => max 0 (r.2 - r.1))).sum : ℤ) : ℚ) / 1000
              / ((total_ms : ℚ) / 1000)))) 4) := by
  constructor
  · intro h0
    subst h0
    rfl
  · intro hpos
    unfold compute_pause_ratio
    rw [if_neg (by omega)]

/-- C6 witness: zero-length audio returns the all-zero result, and the
3000 ms clip with one 700 ms silence returns the rounded ratio 0.2333. -/
theorem pause_ratio_zero_and_clamped_witness :
    compute_pause_ratio 0 [(0, 500)]
      = { total_seconds := 0, silence_seconds := 0, pause_ratio := 0,
          pause_count := 0 } ∧
    (compute_pause_ratio 3000 [(0, 700)]).pause_ratio = 2333/10000 := by
  constructor
  · exact (pause_ratio_zero_and_clamped 0 [(0, 500)]).1 rfl
  · have h := (pause_ratio_zero_and_clamped 3000 [(0, 700)]).2 (by norm_num)
    rw [h]
    norm_num [pyRoundTo, pyRound]

/-- C7: with a positive clip duration, the speech-rate normalizer returns
a word count and a present words-per-minute value exactly when the primary
language subtag of the given language code is in the allowlisted
word-segmentable set; for every other language code the speech_rate_wpm
field is None (absent), not zero, and the word count is 0. -/
theorem speech_rate_wpm_gate (wc cc : String → ℕ) (t : String) (d : ℚ)
    (lc : Option String) (hd : 0 < d) :
    (wpmLangs.contains (primaryLang lc).2 = true →
      compute_speech_rate wc cc t d lc
        = Except.ok { duration_seconds := pyRoundTo d 3
                      word_count := wc t
                      language_code := (primaryLang lc).1
                      reading_speed_cps := pyRoundTo ((cc t : ℚ) / d) 3
                      speech_rate_wpm := some (pyRoundTo ((wc t : ℚ) / (d / 60)) 2) }) ∧
    (wpmLangs.contains (primaryLang lc).2 = false →
      compute_speech_rate wc cc t d lc
        = Except.ok { duration_seconds := pyRoundTo d 3
                      word_count := 0
                      language_code := (primaryLang lc).1
                      reading_speed_cps := pyRoundTo ((cc t : ℚ) / d) 3
                      speech_rate_wpm := none }) := by
  constructor
  · intro hlang
    unfold compute_speech_rate
    rw [if_neg (by linarith)]
    dsimp only
    rw [hlang, if_pos rfl, if_pos (by positivity)]
  · intro hlang
    unfold compute_speech_rate
    rw [if_neg (by linarith)]
    dsimp only
    rw [hlang]
    simp

/-- C7 witness: language code "zh" yields an absent (None) wpm with word
count 0; language code "en-US" yields a present wpm and the counted
words. -/
theorem speech_rate_wpm_gate_witness :
    compute_speech_rate (fun _ => 4) (fun _ => 16) "hello" 3 (some "zh")
      = Except.ok { duration_seconds := pyRoundTo 3 3
                    word_count := 0
                    language_code := "zh"
                    reading_speed_cps := pyRoundTo ((16 : ℚ) / 3) 3
                    speech_rate_wpm := none } ∧
    compute_speech_rate (fun _ => 4) (fun _ => 16) "hello" 3 (some "en-US")
      = Except.ok { duration_seconds := pyRoundTo 3 3
                    word_count := 4
                    language_code := "en-US"
                    reading_speed_cps := pyRoundTo ((16 : ℚ) / 3) 3
                    speech_rate_wpm := some (pyRoundTo ((4 : ℚ) / (3 / 60)) 2) } := by
  constructor
  · exact (speech_rate_wpm_gate (fun _ => 4) (fun _ => 16) "hello" 3 (some "zh")
      (by norm_num)).2 (by decide)
  · exact (speech_rate_wpm_gate (fun _ => 4) (fun _ => 16) "hello" 3 (some "en-US")
      (by norm_num)).1 (by decide)

/-- C8: every value of the feature dictionary returned by the extractor is
a finite float, whatever the library calls return (including NaN, the
infinities, or raising); and the safe-float wrapper replaces NaN, both
infinities and a missing value by the finite default. -/
theorem features_always_finite (o : PraatOracle) :
    (∀ p ∈ extract_uci16 o, p.2.isFinite) ∧
    (∀ d : ℚ, safe_float (some PyFloat.nan) d = PyFloat.val d ∧
      safe_float (some PyFloat.inf) d = PyFloat.val d ∧
      safe_float (some PyFloat.ninf) d = PyFloat.val d ∧
      safe_float none d = PyFloat.val d) := by
  constructor
  · intro p hp
    simp only [extract_uci16, List.mem_cons, List.not_mem_nil, or_false] at hp
    rcases hp with rfl|rfl|rfl|rfl|rfl|rfl|rfl|rfl|rfl|rfl|rfl|rfl|rfl|rfl|rfl|rfl <;>
      trivial
  · intro d
    exact ⟨rfl, rfl, rfl, rfl⟩

/-- C8 witness: on an oracle whose harmonicity call returns NaN, the HNR
entry of the returned dictionary is the finite default 0. -/
theorem features_always_finite_witness :
    (("HNR", PyFloat.val 0) : String × PyFloat) ∈ extract_uci16 oTriv ∧
    (PyFloat.val (0:ℚ)).isFinite := by
  have hmem : (("HNR", PyFloat.val 0) : String × PyFloat) ∈ extract_uci16 oTriv := by
    simp [extract_uci16, oTriv, hnrPy, safe_float, safe_floatQ]
  exact ⟨hmem, (features_always_finite oTriv).1 _ hmem⟩

/-- C9: the reading pipeline rejects every clip whose measured duration is
below 13000 ms, returning the rejection outcome with the measured duration
and error code AUDIO_TOO_SHORT without invoking biomarker extraction (the
result does not depend on the extraction function); clips of duration at
least 13000 ms run the extraction. -/
theorem reading_duration_gate (analyze : Unit → ReadingBiomarkers) (d : ℚ) :
    (d < 13000 →
      run_reading_pipeline analyze d = ReadingOutcome.rejected d "AUDIO_TOO_SHORT" ∧
      ∀ analyze2, run_reading_pipeline analyze2 d = run_reading_pipeline analyze d) ∧
    (13000 ≤ d → run_reading_pipeline analyze d = ReadingOutcome.ok d (analyze ())) := by
  constructor
  · intro hlt
    have h1 : run_reading_pipeline analyze d
        = ReadingOutcome.rejected d "AUDIO_TOO_SHORT" := by
      unfold run_reading_pipeline MIN_DURATION_MS
      rw [if_pos hlt]
    refine ⟨h1, fun analyze2 => ?_⟩
    rw [h1]
    unfold run_reading_pipeline MIN_DURATION_MS
    rw [if_pos hlt]
  · intro hge
    unfold run_reading_pipeline MIN_DURATION_MS
    rw [if_neg (by linarith)]

/-- C9 witness: a 5000 ms clip is rejected with AUDIO_TOO_SHORT. -/
theorem reading_duration_gate_witness :
    run_reading_pipeline (fun _ => bTriv) 5000
      = ReadingOutcome.rejected 5000 "AUDIO_TOO_SHORT" :=
  ((reading_duration_gate (fun _ => bTriv) 5000).1 (by norm_num)).1

/-- C10: predict_from_dict returns prediction 1 exactly when the computed
probability is at least 0.5 and prediction 0 exactly when it is below 0.5,
alongside the unmodified probability produced by the injected scorer on
the feature row. -/
theorem predict_threshold (scorer : List PyFloat → ℚ) (names : List String)
    (features : List (String × PyFloat)) (r : Prediction)
    (h : predict_from_dict scorer names features = some r) :
    (r.prediction = 1 ↔ 1/2 ≤ r.probability_pd) ∧
    (r.prediction = 0 ↔ r.probability_pd < 1/2) ∧
    ∃ x, names.mapM (fun f => features.lookup f) = some x ∧
      r.probability_pd = scorer x := by
  unfold predict_from_dict at h
  cases hx : names.mapM (fun f => features.lookup f) with
  | none => rw [hx] at h; exact absurd h (by simp)
  | some x =>
    rw [hx] at h
    simp only [Option.some.injEq] at h
    subst h
    dsimp only
    refine ⟨?_, ?_, x, rfl, rfl⟩
    · by_cases hc : 1/2 ≤ scorer x
      · simp [hc]
      · simp [hc]
    · by_cases hc : 1/2 ≤ scorer x
      · simp [hc]
      · simp [hc]

/-- C10 witness: a scorer returning 0.75 gives probability 0.75 and
prediction 1. -/
theorem predict_threshold_witness :
    predict_from_dict (fun _ => 3/4) [] []
      = some { probability_pd := 3/4, prediction := 1 } ∧
    (Prediction.mk (3/4) 1).prediction = 1 ∧
    (1:ℚ)/2 ≤ (Prediction.mk (3/4) 1).probability_pd := by
  have hEq : predict_from_dict (fun _ => 3/4) [] ([] : List (String × PyFloat))
      = some { probability_pd := 3/4, prediction := 1 } := by
    norm_num [predict_from_dict, List.mapM, List.mapM.loop]
  refine ⟨hEq, ?_, ?_⟩
  · exact ((predict_threshold _ _ _ _ hEq).1).mpr (by norm_num)
  · exact ((predict_threshold _ _ _ _ hEq).1).mp rfl
